import Mathlib

/-!
Verification of the FitMi puck/dongle core (shallow embedding).

The Python source under `Puck/` is embedded as executable Lean
definitions: machine int16 values become `Int` with explicit two's
complement decoding, numpy float arithmetic becomes exact `ℚ`/`ℝ`
arithmetic, and code paths that raise exceptions to their caller are
modelled with `Option` (`none` = an exception escapes).
-/

namespace FitMi

/-- A 3-component vector (numpy arrays of length 3 in the source). -/
structure Vec3 (R : Type) where
  x : R
  y : R
  z : R
deriving DecidableEq

/-- A quaternion in (w, x, y, z) order as transmitted by the puck. -/
structure Quat (R : Type) where
  w : R
  x : R
  y : R
  z : R
deriving DecidableEq

/-! ## Quaternion helpers (Puck/Quaternion.py)

Defined over an arbitrary commutative ring so that the same definitions
serve both exact rational evaluation and the real-number statements. -/

variable {R : Type} [CommRing R]

/-- Source `q_multiply(q1, q2)`: Hamilton product of two quaternions. -/
def q_multiply (q1 q2 : Quat R) : Quat R :=
  { w := q1.w * q2.w - q1.x * q2.x - q1.y * q2.y - q1.z * q2.z
    x := q1.w * q2.x + q1.x * q2.w + q1.y * q2.z - q1.z * q2.y
    y := q1.w * q2.y + q1.y * q2.w + q1.z * q2.x - q1.x * q2.z
    z := q1.w * q2.z + q1.z * q2.w + q1.x * q2.y - q1.y * q2.x }

/-- Source `q_conjugate(q)`: negate the vector part. -/
def q_conjugate (q : Quat R) : Quat R :=
  { w := q.w, x := -q.x, y := -q.y, z := -q.z }

/-- Source `q_rotate_vector(q, v)`: vector part of `q ⊗ (0,v) ⊗ conjugate(q)`. -/
def q_rotate_vector (q : Quat R) (v : Vec3 R) : Vec3 R :=
  let q_v : Quat R := { w := 0, x := v.x, y := v.y, z := v.z }
  let r := q_multiply (q_multiply q q_v) (q_conjugate q)
  { x := r.x, y := r.y, z := r.z }

/-! ## Sensor packet decoder (Puck/puck_packet.py) -/

/-- The mutable state of a `PuckPacket` object (all fields of
`PuckPacket.__init__`).  `accelerometer`, `gyroscope`, `velocity` and
`roll_pitch_yaw` are integer numpy arrays in the source; `magnetometer`
and `quaternion` are float arrays, embedded as exact rationals. -/
structure PuckPacket where
  accelerometer : Vec3 Int
  gyroscope : Vec3 Int
  magnetometer : Vec3 ℚ
  velocity : Vec3 Int
  quaternion : Quat ℚ
  roll_pitch_yaw : Vec3 Int
  load_cell : Int
  battery : Nat
  charging : Nat
  connected : Nat
  touch : Nat
  imu_ok : Nat
  velocity_measured : Nat
  state : Nat
  res_v5 : Nat
deriving DecidableEq

/-- Source `PuckPacket.__init__`: every data field starts at zero. -/
def PuckPacket.init : PuckPacket :=
  { accelerometer := ⟨0, 0, 0⟩
    gyroscope := ⟨0, 0, 0⟩
    magnetometer := ⟨0, 0, 0⟩
    velocity := ⟨0, 0, 0⟩
    quaternion := ⟨0, 0, 0, 0⟩
    roll_pitch_yaw := ⟨0, 0, 0⟩
    load_cell := 0
    battery := 0
    charging := 0
    connected := 0
    touch := 0
    imu_ok := 0
    velocity_measured := 0
    state := 0
    res_v5 := 0 }

/-- One little-endian signed 16-bit value from two bytes (`struct`
format character `h`). -/
def int16 (lo hi : Nat) : Int :=
  let v := lo + 256 * hi
  if v < 32768 then (v : Int) else (v : Int) - 65536

/-- Models `struct.unpack("<hhhhhhhhhhhhhhBB", raw)`: fourteen little-endian
int16 values followed by two unsigned bytes.  `struct.unpack` raises
unless the buffer is exactly 30 bytes, hence the `Option`. -/
def unpackPacket (raw : List Nat) : Option (List Int × Nat × Nat) :=
  if raw.length = 30 then
    some ((List.range 14).map fun i => int16 (raw.getD (2 * i) 0) (raw.getD (2 * i + 1) 0),
      raw.getD 28 0, raw.getD 29 0)
  else
    none

/-- Source `PuckPacket.parse_status(status)`: unpack the six status bits. -/
def PuckPacket.parse_status (p : PuckPacket) (status : Nat) : PuckPacket :=
  { p with
    connected := status &&& 0b00000001
    imu_ok := (status &&& 0b00000010) >>> 1
    touch := (status &&& 0b00000100) >>> 2
    velocity_measured := (status &&& 0b00001000) >>> 3
    state := (status &&& 0b01110000) >>> 4
    res_v5 := (status &&& 0b10000000) >>> 7 }

/-- The quaternion stored by `parse`: shorts 9..12 divided by 10000. -/
def quatOfShorts (ds : List Int) : Quat ℚ :=
  ⟨(ds.getD 9 0 : ℚ) / 10000, (ds.getD 10 0 : ℚ) / 10000,
    (ds.getD 11 0 : ℚ) / 10000, (ds.getD 12 0 : ℚ) / 10000⟩

/-- Everything `parse` does before the roll/pitch/yaw attempt: gyroscope
from shorts 0..2, accelerometer from shorts 3..5, quaternion from
shorts 9..12 (÷10000), load cell from short 13, battery and status from
the two bytes, then either velocity (raw) or magnetometer (÷100) from
shorts 6..8 depending on the freshly parsed `velocity_measured` bit. -/
def PuckPacket.parseFields (p : PuckPacket) (ds : List Int)
    (bat stat : Nat) : PuckPacket :=
  let p1 := { p with
    gyroscope := ⟨ds.getD 0 0, ds.getD 1 0, ds.getD 2 0⟩
    accelerometer := ⟨ds.getD 3 0, ds.getD 4 0, ds.getD 5 0⟩
    quaternion := quatOfShorts ds
    load_cell := ds.getD 13 0
    battery := bat }
  let p2 := p1.parse_status stat
  if p2.velocity_measured ≠ 0 then
    { p2 with velocity := ⟨ds.getD 6 0, ds.getD 7 0, ds.getD 8 0⟩ }
  else
    { p2 with magnetometer := ⟨(ds.getD 6 0 : ℚ) / 100,
        (ds.getD 7 0 : ℚ) / 100, (ds.getD 8 0 : ℚ) / 100⟩ }

/-- The argument handed to `arcsin` in `getRollPitchYaw`:
`2.0 * (q1 * q3 - q0 * q2)`. -/
def asinArg (q : Quat ℚ) : ℚ :=
  2 * (q.x * q.z - q.w * q.y)

/-- numpy's float→int64 array assignment truncates toward zero. -/
noncomputable def truncI (r : ℝ) : Int :=
  if 0 ≤ r then ⌊r⌋ else ⌈r⌉

/-- Embeds `np.arctan2 y x`, i.e. the argument of the complex number `x + y*I`. -/
noncomputable def arctan2 (y x : ℝ) : ℝ :=
  Complex.arg ⟨x, y⟩

/-- The three Euler angles of `getRollPitchYaw` in degrees, each
truncated by the assignment into the integer `roll_pitch_yaw` array. -/
noncomputable def eulerOf (q : Quat ℚ) : Vec3 Int :=
  { x := truncI (-Real.arcsin ((asinArg q : ℚ) : ℝ) * 180 / Real.pi)
    y := truncI (arctan2 (2 * (q.w * q.x + q.y * q.z) : ℚ)
      ((q.w * q.w - q.x * q.x - q.y * q.y + q.z * q.z : ℚ)) * 180 / Real.pi)
    z := truncI (arctan2 (2 * (q.x * q.y + q.w * q.z) : ℚ)
      ((q.w * q.w + q.x * q.x - q.y * q.y - q.z * q.z : ℚ)) * 180 / Real.pi) }

/-- Source `PuckPacket.getRollPitchYaw()`: writes roll first.  When the
`arcsin` argument lies outside `[-1, 1]` numpy produces NaN and the
assignment into the integer array raises (`none`), leaving every entry
untouched; otherwise all three angles are written. -/
noncomputable def PuckPacket.getRollPitchYaw (p : PuckPacket) :
    Option (Vec3 Int) :=
  if -1 ≤ asinArg p.quaternion ∧ asinArg p.quaternion ≤ 1 then
    some (eulerOf p.quaternion)
  else
    none

/-- Source `PuckPacket.parse(raw_data)`: unpack (raising on a wrong-sized
buffer), store the sensor fields, then attempt the roll/pitch/yaw
computation inside `try/except` — its failure is swallowed and the
previous angles are kept. -/
noncomputable def PuckPacket.parse (p : PuckPacket) (raw : List Nat) :
    Option PuckPacket :=
  match unpackPacket raw with
  | none => none
  | some (ds, bat, stat) =>
    let p' := p.parseFields ds bat stat
    match p'.getRollPitchYaw with
    | some rpy => some { p' with roll_pitch_yaw := rpy }
    | none => some p'

/-! ## Tilt-angle helpers (puck_packet.py, getAngle / getXAngle / getYAngle /
getZAngle) -/

/-- Cast the packet's rational quaternion to the reals. -/
def quatToReal (q : Quat ℚ) : Quat ℝ :=
  ⟨(q.w : ℝ), (q.x : ℝ), (q.y : ℝ), (q.z : ℝ)⟩

/-- Source `PuckPacket.getAngle(v)`: rotate `v` by the packet quaternion,
normalize, and take the signed angle with the xy plane.  When the
rotated vector is zero the division `0/0` makes every later value NaN
and the method returns `None`. -/
noncomputable def PuckPacket.getAngle (p : PuckPacket) (v : Vec3 ℝ) :
    Option ℝ :=
  let vr := q_rotate_vector (quatToReal p.quaternion) v
  let n := Real.sqrt (vr.x ^ 2 + vr.y ^ 2 + vr.z ^ 2)
  if n = 0 then none
  else
    some (Real.arccos (Real.sqrt ((vr.x / n) ^ 2 + (vr.y / n) ^ 2))
      * 180 / Real.pi * Real.sign (vr.z / n))

/-- Source `PuckPacket.getXAngle()`: the source builds `x_axis = [0.0, 0.0, 1.0]`. -/
noncomputable def PuckPacket.getXAngle (p : PuckPacket) : Option ℝ :=
  let x_axis : Vec3 ℝ := ⟨0, 0, 1⟩
  p.getAngle x_axis

/-- Source `PuckPacket.getYAngle()`: the source builds `y_axis = [0.0, 0.0, 1.0]`. -/
noncomputable def PuckPacket.getYAngle (p : PuckPacket) : Option ℝ :=
  let y_axis : Vec3 ℝ := ⟨0, 0, 1⟩
  p.getAngle y_axis

/-- Source `PuckPacket.getZAngle()`: the source builds `z_axis = [0.0, 0.0, 1.0]`. -/
noncomputable def PuckPacket.getZAngle (p : PuckPacket) : Option ℝ :=
  let z_axis : Vec3 ℝ := ⟨0, 0, 1⟩
  p.getAngle z_axis

/-! ## Dongle session (Puck/hid_puck.py) -/

/-- The RX radio fields of `HIDPuckDongle`. -/
structure RadioState where
  rx_hardware_state : Nat
  rx_channel : Nat
  block_0_pipe : Nat
  block_1_pipe : Nat
deriving DecidableEq

/-- Source `HIDPuckDongle.parse_rx_data(rx_data)`: `struct.unpack("<H", ...)`
raises unless the buffer is exactly two bytes; then four bit fields are
extracted from the little-endian uint16. -/
def parse_rx_data (s : RadioState) (rx_data : List Nat) : Option RadioState :=
  if rx_data.length = 2 then
    let v := rx_data.getD 0 0 + 256 * rx_data.getD 1 0
    some { s with
      rx_hardware_state := v >>> 13
      rx_channel := (v &&& 0b0001111111000000) >>> 6
      block_1_pipe := (v &&& 0b111000) >>> 3
      block_0_pipe := v &&& 0b111 }
  else
    none

/-- The `touch_history` dictionary of `input_checker`; the source stores
the `touch` int (initially the bool `False`, i.e. 0). -/
structure TouchHistory where
  puck_0 : Nat
  puck_1 : Nat
deriving DecidableEq

/-- Variable `status_byte_index` in `check_for_touch`: byte offset 29 of the
frame for puck 0 (and any other index), 59 for puck 1. -/
def statusIndex (puck_number : Nat) : Nat :=
  if puck_number = 1 then 59 else 29

/-- The touch bit `check_for_touch` extracts: bit 2 of the status byte
at that puck's offset. -/
def touchBitOf (frame : List Nat) (puck_number : Nat) : Nat :=
  ((frame.getD (statusIndex puck_number) 0) &&& 0b00000100) >>> 2

/-- Source `HIDPuckDongle.check_for_touch(input, touch_history, puck_number)`:
read the status byte at offset 29 (puck 0) or 59 (puck 1), extract the
touch bit, and on a change push `(puck, value)` onto the capacity-10
touch queue (dropped when the queue is full); finally remember the new
value. -/
def check_for_touch (input : List Nat) (hist : TouchHistory)
    (touch_queue : List (Nat × Bool)) (puck_number : Nat) :
    TouchHistory × List (Nat × Bool) :=
  let touch := touchBitOf input puck_number
  if puck_number = 0 then
    let q :=
      if touch ≠ 0 ∧ hist.puck_0 = 0 then
        if touch_queue.length < 10 then touch_queue ++ [(0, true)] else touch_queue
      else if touch = 0 ∧ hist.puck_0 ≠ 0 then
        if touch_queue.length < 10 then touch_queue ++ [(0, false)] else touch_queue
      else touch_queue
    ({ hist with puck_0 := touch }, q)
  else if puck_number = 1 then
    let q :=
      if touch ≠ 0 ∧ hist.puck_1 = 0 then
        if touch_queue.length < 10 then touch_queue ++ [(1, true)] else touch_queue
      else if touch = 0 ∧ hist.puck_1 ≠ 0 then
        if touch_queue.length < 10 then touch_queue ++ [(1, false)] else touch_queue
      else touch_queue
    ({ hist with puck_1 := touch }, q)
  else
    (hist, touch_queue)

/-- One entry of `usb_out_queue`:
`[0x00, command_byte, message, last_byte]`.  The message and last byte
are rationals because `actuate` computes its duration byte with float
division. -/
structure OutCmd where
  report_id : Nat
  command : Nat
  message : ℚ
  last_byte : ℚ
deriving DecidableEq

/-- The state read and written by one iteration of the `input_checker`
loop body. -/
structure CheckerState where
  read_failure_count : Nat
  receiving_data : Bool
  is_open : Bool
  touch_hist : TouchHistory
  touch_queue : List (Nat × Bool)
  usb_out_queue : List OutCmd
  input : List Nat
deriving DecidableEq

/-- Constant `max_read_failures` in `input_checker`. -/
def max_read_failures : Nat := 70

/-- The at-most-one-write-per-iteration flush at the end of the
`input_checker` loop body: `if not usb_out_queue.empty(): write(get())`. -/
def usbFlush (s : CheckerState) : CheckerState :=
  if s.usb_out_queue.isEmpty then s
  else { s with usb_out_queue := s.usb_out_queue.tail }

/-- One iteration of the `while self.is_open` body of
`HIDPuckDongle.input_checker`.  `read = none` models `dongle.read`
raising (the `except` clause clears `receiving_data`); `some []` is an
empty (failed) read, `some bytes` with data a successful one, which
resets the failure counter, marks data as received and runs the fast
touch-edge detection for both pucks.  Afterwards at most one queued
command is written to the device. -/
def input_checker_step (s : CheckerState) (read : Option (List Nat)) :
    CheckerState :=
  match read with
  | none => { s with receiving_data := false }
  | some bytes =>
    let s1 := { s with input := bytes }
    let s2 :=
      if bytes.isEmpty then
        let c := s1.read_failure_count + 1
        if max_read_failures ≤ c then
          { s1 with read_failure_count := c, receiving_data := false }
        else
          { s1 with read_failure_count := c }
      else
        let r0 := check_for_touch bytes s1.touch_hist s1.touch_queue 0
        let r1 := check_for_touch bytes r0.1 r0.2 1
        { s1 with read_failure_count := 0
                  receiving_data := true
                  touch_hist := r1.1
                  touch_queue := r1.2 }
    usbFlush s2

/-- The session state touched by `send_command` / `actuate`. -/
structure SessionState where
  plugged : Bool
  last_sent_0 : ℚ
  last_sent_1 : ℚ
  usb_out_queue : List OutCmd
deriving DecidableEq

/-- Source `HIDPuckDongle.send_command(puck_number, command, message,
last_byte)`: pack the puck index into the top three bits of the command
byte and enqueue the 4-byte record unless the device is unplugged or the
capacity-10 queue is full. -/
def send_command (s : SessionState) (puck_number command : Nat)
    (message last_byte : ℚ) : SessionState :=
  let cmd := (0b11100000 &&& (puck_number <<< 5)) ||| command
  if s.plugged ∧ s.usb_out_queue.length < 10 then
    { s with usb_out_queue :=
        s.usb_out_queue ++ [⟨0x00, cmd, message, last_byte⟩] }
  else
    s

/-- The `COMMANDS` dictionary lookup
`COMMANDS.get(actuator).get(action_type)`; a missing key raises / gives
`None`, which `actuate` swallows. -/
def COMMANDS (actuator action_type : String) : Option Nat :=
  match actuator, action_type with
  | "red", "blink" => some 0x01
  | "red", "pulse" => some 0x05
  | "green", "blink" => some 0x02
  | "green", "pulse" => some 0x06
  | "blue", "blink" => some 0x03
  | "blue", "pulse" => some 0x07
  | "motor", "blink" => some 0x04
  | "motor", "pulse" => some 0x08
  | _, _ => none

/-- The tail of `HIDPuckDongle.actuate` once the rate-limit gate has
passed and the timestamp has been stored: compute the duration byte
`min(duration*255/1500, 255)`, clamp the amplitude to 100, and send the
looked-up command; a failed `COMMANDS` lookup raises inside the `try`
and is swallowed. -/
def actuate_send (s : SessionState) (puck_number : Nat)
    (duration amplitude : ℚ) (action_type actuator : String) : SessionState :=
  let duration_byte := min (duration * 255 / 1500) 255
  let amplitude := min amplitude 100
  match COMMANDS actuator action_type with
  | some command => send_command s puck_number command duration_byte amplitude
  | none => s

/-- Source `HIDPuckDongle.actuate(puck_number, duration, amplitude,
action_type, actuator)` at wall-clock time `now`: return immediately
(state unchanged) when the same puck was actuated less than 0.2 s ago;
otherwise store `now` as that puck's last-sent time and send the
command.  For a puck index other than 0 or 1 the timestamp store
`self.last_sent[puck_number]` raises an uncaught IndexError (`none`). -/
def actuate (s : SessionState) (now : ℚ) (puck_number : Nat)
    (duration amplitude : ℚ) (action_type actuator : String) :
    Option SessionState :=
  if puck_number = 0 ∧ now - s.last_sent_0 < 1/5 then some s
  else if puck_number = 1 ∧ now - s.last_sent_1 < 1/5 then some s
  else
    match puck_number with
    | 0 => some (actuate_send { s with last_sent_0 := now }
        puck_number duration amplitude action_type actuator)
    | 1 => some (actuate_send { s with last_sent_1 := now }
        puck_number duration amplitude action_type actuator)
    | _ => none

/-- Reads `last_sent[p]` of the session state. -/
def SessionState.lastSent (s : SessionState) (p : Nat) : ℚ :=
  if p = 0 then s.last_sent_0 else s.last_sent_1

/-! ## Task trigger (Puck/puck_task.py) -/

/-- The state of a `PuckTask` object.  `state = false` is the spec's
`AboveBand`, `state = true` its `BelowBand`. -/
structure PuckTask where
  dof : Nat
  state : Bool
  angle_reference : Int
  target : Int
deriving DecidableEq

/-- Source `PuckTask.degrees_of_freedom` lookup used by `__init__`. -/
def degrees_of_freedom (dof_key : String) : Option Nat :=
  match dof_key with
  | "roll" => some 0
  | "pitch" => some 1
  | "yaw" => some 2
  | _ => none

/-- Source `PuckTask.__init__(dof_key)`; an unknown key raises KeyError. -/
def PuckTask.init (dof_key : String) : Option PuckTask :=
  match degrees_of_freedom dof_key with
  | some d => some { dof := d, state := false, angle_reference := 0, target := 15 }
  | none => none

/-- Indexing `roll_pitch_yaw[self.dof]` (the `dof` produced by `__init__` is
always 0, 1 or 2). -/
def Vec3.get (v : Vec3 Int) (i : Nat) : Int :=
  if i = 0 then v.x else if i = 1 then v.y else v.z

/-- Source `PuckTask.checkStateATrigger(puck)` given the yellow puck's
`roll_pitch_yaw` array: early-exit returning `None` when the state is
already `True` or when the selected angle is falsy (zero); flip the
state when the referenced angle has dropped below `-target`; return the
resulting state. -/
def checkStateATrigger (t : PuckTask) (roll_pitch_yaw : Vec3 Int) :
    PuckTask × Option Bool :=
  if t.state then (t, none)
  else
    let pos := roll_pitch_yaw.get t.dof
    if pos = 0 then (t, none)
    else if pos - t.angle_reference < -t.target then
      let t' := { t with state := true }
      (t', some t'.state)
    else
      (t, some t.state)

/-! ## Shared helper lemmas -/

/-- Shifting right distributes over bitwise and. -/
theorem and_shiftRight_distrib (a b k : Nat) :
    (a &&& b) >>> k = (a >>> k) &&& (b >>> k) := by
  apply Nat.eq_of_testBit_eq
  intro i
  simp [Nat.testBit_shiftRight, Nat.testBit_and]

/-! ## Claim theorems -/

set_option maxRecDepth 4000 in
/-- C2: the method `parse_status` stores bit 0 of the status byte in `connected`,
bit 1 in `imu_ok`, bit 2 in `touch`, bit 3 in `velocity_measured`, bits
4–6 in `state` and bit 7 in the reserved flag; in particular the byte
`0b01011101` yields connected=1, imu_ok=0, touch=1, velocity_measured=1,
state=0b101, reserved=0. -/
theorem parse_status_bit_layout (p : PuckPacket) (b : Nat) (hb : b < 256) :
    ((p.parse_status b).connected = b % 2 ∧
      (p.parse_status b).imu_ok = b / 2 % 2 ∧
      (p.parse_status b).touch = b / 4 % 2 ∧
      (p.parse_status b).velocity_measured = b / 8 % 2 ∧
      (p.parse_status b).state = b / 16 % 8 ∧
      (p.parse_status b).res_v5 = b / 128 % 2) ∧
    ((PuckPacket.init.parse_status 0b01011101).connected = 1 ∧
      (PuckPacket.init.parse_status 0b01011101).imu_ok = 0 ∧
      (PuckPacket.init.parse_status 0b01011101).touch = 1 ∧
      (PuckPacket.init.parse_status 0b01011101).velocity_measured = 1 ∧
      (PuckPacket.init.parse_status 0b01011101).state = 0b101 ∧
      (PuckPacket.init.parse_status 0b01011101).res_v5 = 0) := by
  refine ⟨?_, by decide⟩
  simp only [PuckPacket.parse_status]
  revert b
  decide

/-- Witness for C2 at the status byte `0b01011101 = 93`. -/
theorem parse_status_bit_layout_witness :
    (93 : Nat) < 256 ∧
      (((PuckPacket.init.parse_status 93).connected = 93 % 2 ∧
        (PuckPacket.init.parse_status 93).imu_ok = 93 / 2 % 2 ∧
        (PuckPacket.init.parse_status 93).touch = 93 / 4 % 2 ∧
        (PuckPacket.init.parse_status 93).velocity_measured = 93 / 8 % 2 ∧
        (PuckPacket.init.parse_status 93).state = 93 / 16 % 8 ∧
        (PuckPacket.init.parse_status 93).res_v5 = 93 / 128 % 2) ∧
      ((PuckPacket.init.parse_status 0b01011101).connected = 1 ∧
        (PuckPacket.init.parse_status 0b01011101).imu_ok = 0 ∧
        (PuckPacket.init.parse_status 0b01011101).touch = 1 ∧
        (PuckPacket.init.parse_status 0b01011101).velocity_measured = 1 ∧
        (PuckPacket.init.parse_status 0b01011101).state = 0b101 ∧
        (PuckPacket.init.parse_status 0b01011101).res_v5 = 0)) :=
  ⟨by decide, parse_status_bit_layout PuckPacket.init 93 (by decide)⟩

/-- C3: decoding a 2-byte radio record unpacks the little-endian uint16
`v` and stores `v >>> 13` as the hardware state, `(v >>> 6) &&& 0x7F`
as the rx channel, `(v >>> 3) &&& 0x7` as puck 1's pipe and `v &&& 0x7`
as puck 0's pipe; in particular `v = 0b1010011000010101 1`, i.e.
`0b101_0110000_101_011 = 44075`, decodes to hardware state 5, channel
`0b0110000`, pipe1 `0b101`, pipe0 `0b011`. -/
theorem parse_rx_data_bit_fields (s : RadioState) (b0 b1 : Nat)
    (h0 : b0 < 256) (h1 : b1 < 256) :
    (parse_rx_data s [b0, b1] = some
      { s with
        rx_hardware_state := (b0 + 256 * b1) >>> 13
        rx_channel := ((b0 + 256 * b1) >>> 6) &&& 0x7F
        block_1_pipe := ((b0 + 256 * b1) >>> 3) &&& 0x7
        block_0_pipe := (b0 + 256 * b1) &&& 0x7 }) ∧
    parse_rx_data ⟨0, 0, 0, 0⟩ [43, 172] =
      some ⟨5, 0b0110000, 0b011, 0b101⟩ := by
  refine ⟨?_, by decide⟩
  have e1 : ((b0 + 256 * b1) &&& 0b0001111111000000) >>> 6 =
      ((b0 + 256 * b1) >>> 6) &&& 0x7F := by
    rw [and_shiftRight_distrib]
    rfl
  have e2 : ((b0 + 256 * b1) &&& 0b111000) >>> 3 =
      ((b0 + 256 * b1) >>> 3) &&& 0x7 := by
    rw [and_shiftRight_distrib]
    rfl
  simp only [parse_rx_data, List.length_cons, List.length_nil, List.getD,
    List.get?]
  norm_num [e1, e2]

/-- Witness for C3 at the bytes `[43, 172]`, i.e. `v = 44075`. -/
theorem parse_rx_data_bit_fields_witness :
    (43 : Nat) < 256 ∧ (172 : Nat) < 256 ∧
      ((parse_rx_data ⟨0, 0, 0, 0⟩ [43, 172] = some
        { RadioState.mk 0 0 0 0 with
          rx_hardware_state := (43 + 256 * 172) >>> 13
          rx_channel := ((43 + 256 * 172) >>> 6) &&& 0x7F
          block_1_pipe := ((43 + 256 * 172) >>> 3) &&& 0x7
          block_0_pipe := (43 + 256 * 172) &&& 0x7 }) ∧
      parse_rx_data ⟨0, 0, 0, 0⟩ [43, 172] =
        some ⟨5, 0b0110000, 0b011, 0b101⟩) :=
  ⟨by decide, by decide,
    parse_rx_data_bit_fields ⟨0, 0, 0, 0⟩ 43 172 (by decide) (by decide)⟩

/-- C7: with the default reference 0 and threshold 15, if the trigger is
in the `AboveBand` state (`state = false`) and the selected angle minus
the reference is below `-target`, `checkStateATrigger` flips the state
to `BelowBand` (`true`) and reports `true`; when the condition fails the
state is unchanged. -/
theorem checkStateATrigger_enter_negative (t : PuckTask) (rpy : Vec3 Int)
    (hst : t.state = false) (href : t.angle_reference = 0)
    (htgt : t.target = 15) :
    (rpy.get t.dof - t.angle_reference < -t.target →
      (checkStateATrigger t rpy).1.state = true ∧
      (checkStateATrigger t rpy).2 = some true) ∧
    (¬(rpy.get t.dof - t.angle_reference < -t.target) →
      (checkStateATrigger t rpy).1 = t) := by
  constructor
  · intro hcond
    have hpos : ¬(rpy.get t.dof = 0) := by
      rw [href, htgt] at hcond
      omega
    simp [checkStateATrigger, hst, hpos, hcond]
  · intro hcond
    by_cases hpos : rpy.get t.dof = 0
    · simp [checkStateATrigger, hst, hpos]
    · simp [checkStateATrigger, hst, hpos, hcond]

/-- Witness for C7: pitch task, angle -20 with reference 0 and target 15. -/
theorem checkStateATrigger_enter_negative_witness :
    ({ dof := 1, state := false, angle_reference := 0, target := 15 } :
      PuckTask).state = false ∧
    ({ dof := 1, state := false, angle_reference := 0, target := 15 } :
      PuckTask).angle_reference = 0 ∧
    ({ dof := 1, state := false, angle_reference := 0, target := 15 } :
      PuckTask).target = 15 ∧
    (((Vec3.mk 0 (-20) 0).get
        ({ dof := 1, state := false, angle_reference := 0, target := 15 } :
          PuckTask).dof -
        ({ dof := 1, state := false, angle_reference := 0, target := 15 } :
          PuckTask).angle_reference <
        -({ dof := 1, state := false, angle_reference := 0, target := 15 } :
          PuckTask).target →
      (checkStateATrigger
        { dof := 1, state := false, angle_reference := 0, target := 15 }
        ⟨0, -20, 0⟩).1.state = true ∧
      (checkStateATrigger
        { dof := 1, state := false, angle_reference := 0, target := 15 }
        ⟨0, -20, 0⟩).2 = some true) ∧
    (¬((Vec3.mk 0 (-20) 0).get
        ({ dof := 1, state := false, angle_reference := 0, target := 15 } :
          PuckTask).dof -
        ({ dof := 1, state := false, angle_reference := 0, target := 15 } :
          PuckTask).angle_reference <
        -({ dof := 1, state := false, angle_reference := 0, target := 15 } :
          PuckTask).target) →
      (checkStateATrigger
        { dof := 1, state := false, angle_reference := 0, target := 15 }
        ⟨0, -20, 0⟩).1 =
        { dof := 1, state := false, angle_reference := 0, target := 15 })) :=
  ⟨rfl, rfl, rfl,
    checkStateATrigger_enter_negative
      { dof := 1, state := false, angle_reference := 0, target := 15 }
      ⟨0, -20, 0⟩ rfl rfl rfl⟩

/-- C8: for a unit quaternion `q` (exactly, over the reals), rotating a
vector by `q` and then by `conjugate(q)` returns the original vector. -/
theorem q_rotate_vector_round_trip (q : Quat ℝ) (v : Vec3 ℝ)
    (hq : q.w ^ 2 + q.x ^ 2 + q.y ^ 2 + q.z ^ 2 = 1) :
    q_rotate_vector (q_conjugate q) (q_rotate_vector q v) = v := by
  obtain ⟨w, x, y, z⟩ := q
  obtain ⟨a, b, c⟩ := v
  simp only [q_rotate_vector, q_multiply, q_conjugate] at hq ⊢
  simp only [Vec3.mk.injEq]
  refine ⟨?_, ?_, ?_⟩
  · linear_combination ((w ^ 2 + x ^ 2 + y ^ 2 + z ^ 2 + 1) * a) * hq
  · linear_combination ((w ^ 2 + x ^ 2 + y ^ 2 + z ^ 2 + 1) * b) * hq
  · linear_combination ((w ^ 2 + x ^ 2 + y ^ 2 + z ^ 2 + 1) * c) * hq

/-- Witness for C8 at the identity quaternion and the vector (1, 2, 3). -/
theorem q_rotate_vector_round_trip_witness :
    ((1 : ℝ) ^ 2 + 0 ^ 2 + 0 ^ 2 + 0 ^ 2 = 1) ∧
      q_rotate_vector (q_conjugate ⟨1, 0, 0, 0⟩)
        (q_rotate_vector (⟨1, 0, 0, 0⟩ : Quat ℝ) ⟨1, 2, 3⟩) = ⟨1, 2, 3⟩ :=
  ⟨by norm_num,
    q_rotate_vector_round_trip ⟨1, 0, 0, 0⟩ ⟨1, 2, 3⟩ (by norm_num)⟩

/-- C9: the helpers `getXAngle`, `getYAngle` and `getZAngle` agree on every packet
state, because each rotates the same vector `[0, 0, 1]`. -/
theorem tilt_angle_helpers_agree (p : PuckPacket) :
    p.getXAngle = p.getYAngle ∧ p.getYAngle = p.getZAngle :=
  ⟨rfl, rfl⟩

/-- C10: `parse` fails on every buffer whose length differs from 30 —
longer buffers are rejected just like truncated ones — and no field is
modified, since `struct.unpack` raises before any assignment. -/
theorem parse_wrong_length_rejected (p : PuckPacket) (raw : List Nat)
    (h : raw.length ≠ 30) : p.parse raw = none := by
  simp [PuckPacket.parse, unpackPacket, h]

/-- Witness for C10 at a 31-byte (over-long) buffer. -/
theorem parse_wrong_length_rejected_witness :
    (List.replicate 31 (0 : Nat)).length ≠ 30 ∧
      PuckPacket.init.parse (List.replicate 31 0) = none :=
  ⟨by decide, parse_wrong_length_rejected _ _ (by decide)⟩

/-- C4: touch-edge detection compares bit 2 of the status byte at frame
offset 29 (puck 0) / 59 (puck 1) against the remembered previous value
and enqueues an event only on a change (dropping it when the
capacity-10 queue is full): from an untouched history, frames whose
touch bits form 0,0,1,1,0 enqueue exactly `(puck, true)` then
`(puck, false)`. -/
theorem check_for_touch_edge_queue (p : Nat) (hp : p < 2)
    (f1 f2 f3 f4 f5 : List Nat)
    (h1 : touchBitOf f1 p = 0) (h2 : touchBitOf f2 p = 0)
    (h3 : touchBitOf f3 p = 1) (h4 : touchBitOf f4 p = 1)
    (h5 : touchBitOf f5 p = 0) :
    (([f1, f2, f3, f4, f5].foldl
        (fun st f => check_for_touch f st.1 st.2 p) (⟨0, 0⟩, [])).2 =
      [(p, true), (p, false)]) ∧
    (∀ (input : List Nat) (hist : TouchHistory) (q : List (Nat × Bool)),
      10 ≤ q.length → (check_for_touch input hist q p).2 = q) := by
  constructor
  · interval_cases p <;>
      simp [check_for_touch, h1, h2, h3, h4, h5]
  · intro input hist q hq
    have hfull : ¬(q.length < 10) := by omega
    interval_cases p <;> simp [check_for_touch, hfull]

/-- Witness for C4: puck 0, synthetic 62-byte frames whose status byte
at offset 29 carries touch bits 0,0,1,1,0. -/
theorem check_for_touch_edge_queue_witness :
    (0 : Nat) < 2 ∧
    touchBitOf (List.replicate 29 0 ++ [0] ++ List.replicate 32 0) 0 = 0 ∧
    touchBitOf (List.replicate 29 0 ++ [4] ++ List.replicate 32 0) 0 = 1 ∧
    ((([List.replicate 29 0 ++ [0] ++ List.replicate 32 0,
        List.replicate 29 0 ++ [0] ++ List.replicate 32 0,
        List.replicate 29 0 ++ [4] ++ List.replicate 32 0,
        List.replicate 29 0 ++ [4] ++ List.replicate 32 0,
        List.replicate 29 0 ++ [0] ++ List.replicate 32 0].foldl
          (fun st f => check_for_touch f st.1 st.2 0) (⟨0, 0⟩, [])).2 =
      [(0, true), (0, false)]) ∧
    (∀ (input : List Nat) (hist : TouchHistory) (q : List (Nat × Bool)),
      10 ≤ q.length → (check_for_touch input hist q 0).2 = q)) :=
  ⟨by decide, by decide, by decide,
    check_for_touch_edge_queue 0 (by decide) _ _ _ _ _
      (by decide) (by decide) (by decide) (by decide) (by decide)⟩

/-- Lemma: `usbFlush` only touches the outbound queue. -/
theorem usbFlush_count (s : CheckerState) :
    (usbFlush s).read_failure_count = s.read_failure_count := by
  unfold usbFlush
  split <;> rfl

/-- Lemma: `usbFlush` preserves the `receiving_data` flag. -/
theorem usbFlush_rd (s : CheckerState) :
    (usbFlush s).receiving_data = s.receiving_data := by
  unfold usbFlush
  split <;> rfl

/-- Lemma: `usbFlush` preserves the `is_open` flag. -/
theorem usbFlush_open (s : CheckerState) :
    (usbFlush s).is_open = s.is_open := by
  unfold usbFlush
  split <;> rfl

/-- What one empty read does: the failure counter is incremented, the
`receiving_data` flag is cleared exactly when the counter reaches 70,
and the loop flag is untouched. -/
theorem input_checker_fail_step (s : CheckerState) :
    (input_checker_step s (some [])).read_failure_count =
      s.read_failure_count + 1 ∧
    (input_checker_step s (some [])).receiving_data =
      (if 70 ≤ s.read_failure_count + 1 then false else s.receiving_data) ∧
    (input_checker_step s (some [])).is_open = s.is_open := by
  refine ⟨?_, ?_, ?_⟩ <;>
    simp only [input_checker_step, List.isEmpty_nil, if_true,
      max_read_failures, usbFlush_count, usbFlush_rd, usbFlush_open] <;>
    split <;> rfl

/-- Iterating empty reads: as long as the counter stays below 70 it
counts up and `receiving_data` is untouched. -/
theorem input_checker_fail_iterate (k : Nat) (s : CheckerState)
    (hk : s.read_failure_count + k < 70) :
    ((fun st => input_checker_step st (some []))^[k] s).read_failure_count =
      s.read_failure_count + k ∧
    ((fun st => input_checker_step st (some []))^[k] s).receiving_data =
      s.receiving_data := by
  induction k generalizing s with
  | zero => simp
  | succ n ih =>
    rw [Function.iterate_succ_apply]
    obtain ⟨hc, hr, -⟩ := input_checker_fail_step s
    have hlt : ¬(70 ≤ s.read_failure_count + 1) := by omega
    rw [if_neg hlt] at hr
    obtain ⟨ihc, ihr⟩ := ih (input_checker_step s (some [])) (by rw [hc]; omega)
    refine ⟨?_, ?_⟩
    · rw [ihc, hc]
      omega
    · rw [ihr, hr]

/-- C5: in the polling loop body a successful read resets the
consecutive-failure counter and sets `receiving_data`, an empty read
increments the counter, 69 consecutive empty reads after a success
leave `receiving_data` true while the 70th clears it, and no read
outcome stops the loop (`is_open` is never written by the body). -/
theorem input_checker_failure_escalation (s : CheckerState)
    (bytes : List Nat) (hbytes : bytes ≠ [])
    (s0 : CheckerState) (hc0 : s0.read_failure_count = 0)
    (hrd0 : s0.receiving_data = true) (read : Option (List Nat)) :
    ((input_checker_step s (some bytes)).read_failure_count = 0 ∧
      (input_checker_step s (some bytes)).receiving_data = true) ∧
    (input_checker_step s (some [])).read_failure_count =
      s.read_failure_count + 1 ∧
    (((fun st => input_checker_step st (some []))^[69] s0).receiving_data =
      true ∧
      ((fun st => input_checker_step st (some []))^[70] s0).receiving_data =
        false) ∧
    (input_checker_step s read).is_open = s.is_open := by
  have hbe : bytes.isEmpty = false := by
    cases bytes with
    | nil => exact absurd rfl hbytes
    | cons a l => rfl
  refine ⟨⟨?_, ?_⟩, (input_checker_fail_step s).1, ⟨?_, ?_⟩, ?_⟩
  · simp only [input_checker_step, hbe, Bool.false_eq_true, if_false,
      usbFlush_count]
  · simp only [input_checker_step, hbe, Bool.false_eq_true, if_false,
      usbFlush_rd]
  · exact (input_checker_fail_iterate 69 s0 (by omega)).2.trans hrd0
  · rw [Function.iterate_succ_apply']
    obtain ⟨-, hr, -⟩ :=
      input_checker_fail_step ((fun st => input_checker_step st (some []))^[69] s0)
    rw [hr, (input_checker_fail_iterate 69 s0 (by omega)).1, hc0,
      if_pos (show 70 ≤ 0 + 69 + 1 by omega)]
  · cases read with
    | none => rfl
    | some bs =>
      by_cases h : bs.isEmpty <;>
        simp only [input_checker_step, h, if_true, Bool.false_eq_true,
          if_false, usbFlush_open] <;>
        split <;> rfl

/-- Witness for C5: a one-byte successful read and a fresh
post-success state. -/
theorem input_checker_failure_escalation_witness :
    ([1] : List Nat) ≠ [] ∧
    (CheckerState.mk 0 true true ⟨0, 0⟩ [] [] []).read_failure_count = 0 ∧
    (CheckerState.mk 0 true true ⟨0, 0⟩ [] [] []).receiving_data = true ∧
    (((input_checker_step (CheckerState.mk 3 true true ⟨0, 0⟩ [] [] [])
        (some [1])).read_failure_count = 0 ∧
      (input_checker_step (CheckerState.mk 3 true true ⟨0, 0⟩ [] [] [])
        (some [1])).receiving_data = true) ∧
    (input_checker_step (CheckerState.mk 3 true true ⟨0, 0⟩ [] [] [])
        (some [])).read_failure_count =
      (CheckerState.mk 3 true true ⟨0, 0⟩ [] [] []).read_failure_count + 1 ∧
    (((fun st => input_checker_step st (some []))^[69]
        (CheckerState.mk 0 true true ⟨0, 0⟩ [] [] [])).receiving_data = true ∧
      ((fun st => input_checker_step st (some []))^[70]
        (CheckerState.mk 0 true true ⟨0, 0⟩ [] [] [])).receiving_data =
        false) ∧
    (input_checker_step (CheckerState.mk 3 true true ⟨0, 0⟩ [] [] [])
      none).is_open =
      (CheckerState.mk 3 true true ⟨0, 0⟩ [] [] []).is_open) :=
  ⟨by decide, rfl, rfl,
    input_checker_failure_escalation
      (CheckerState.mk 3 true true ⟨0, 0⟩ [] [] []) [1] (by decide)
      (CheckerState.mk 0 true true ⟨0, 0⟩ [] [] []) rfl rfl none⟩

/-- C6: a first `actuate` call outside the 200 ms window enqueues
exactly one command and stores its timestamp; any second call for the
same puck less than 200 ms later returns with the state — queue and
last-sent timestamp — completely unchanged, so the pair enqueues
exactly one command; a later call 200 ms or more after the first
enqueues again. -/
theorem actuate_rate_limit (s s1 : SessionState) (p : Nat) (t1 d a : ℚ)
    (aty ar : String) (c : Nat) (hp : p < 2) (hplug : s.plugged = true)
    (hroom : s.usb_out_queue.length < 10) (hcmd : COMMANDS ar aty = some c)
    (hgate : 1/5 ≤ t1 - s.lastSent p)
    (hs1 : actuate s t1 p d a aty ar = some s1) :
    s1.usb_out_queue.length = s.usb_out_queue.length + 1 ∧
    s1.lastSent p = t1 ∧
    (∀ (t2 d2 a2 : ℚ) (aty2 ar2 : String), t2 - t1 < 1/5 →
      actuate s1 t2 p d2 a2 aty2 ar2 = some s1) ∧
    (∀ (t3 d3 a3 : ℚ) (aty3 ar3 : String) (c3 : Nat),
      COMMANDS ar3 aty3 = some c3 → 1/5 ≤ t3 - t1 →
      s1.usb_out_queue.length < 10 →
      ∃ s2, actuate s1 t3 p d3 a3 aty3 ar3 = some s2 ∧
        s2.usb_out_queue.length = s1.usb_out_queue.length + 1) := by
  interval_cases p
  · have hg : ¬(t1 - s.last_sent_0 < 1/5) := by
      simp [SessionState.lastSent] at hgate
      linarith
    have hstep : actuate s t1 0 d a aty ar =
        some (actuate_send { s with last_sent_0 := t1 } 0 d a aty ar) := by
      unfold actuate
      rw [if_neg (fun h => hg h.2), if_neg (by simp)]
    rw [hstep] at hs1
    have hs1' : s1 = actuate_send { s with last_sent_0 := t1 } 0 d a aty ar :=
      (Option.some_inj.mp hs1).symm
    have hfields : s1.usb_out_queue =
        s.usb_out_queue ++ [⟨0x00, (0b11100000 &&& (0 <<< 5)) ||| c,
          min (d * 255 / 1500) 255, min a 100⟩] ∧
        s1.last_sent_0 = t1 ∧ s1.last_sent_1 = s.last_sent_1 ∧
        s1.plugged = s.plugged := by
      rw [hs1']
      simp [actuate_send, send_command, hcmd, hplug, hroom]
    obtain ⟨hq, hl0, hl1, hpl⟩ := hfields
    refine ⟨?_, ?_, ?_, ?_⟩
    · rw [hq]
      simp
    · simp [SessionState.lastSent, hl0]
    · intro t2 d2 a2 aty2 ar2 ht2
      have h2 : t2 - s1.last_sent_0 < 1/5 := by rw [hl0]; linarith
      unfold actuate
      rw [if_pos ⟨rfl, h2⟩]
    · intro t3 d3 a3 aty3 ar3 c3 hcmd3 ht3 hroom3
      have hg3 : ¬(t3 - s1.last_sent_0 < 1/5) := by rw [hl0]; linarith
      refine ⟨actuate_send { s1 with last_sent_0 := t3 } 0 d3 a3 aty3 ar3,
        ?_, ?_⟩
      · unfold actuate
        rw [if_neg (fun h => hg3 h.2), if_neg (by simp)]
      · simp [actuate_send, send_command, hcmd3, hpl, hplug, hroom3]
  · have hg : ¬(t1 - s.last_sent_1 < 1/5) := by
      simp [SessionState.lastSent] at hgate
      linarith
    have hstep : actuate s t1 1 d a aty ar =
        some (actuate_send { s with last_sent_1 := t1 } 1 d a aty ar) := by
      unfold actuate
      rw [if_neg (by simp), if_neg (fun h => hg h.2)]
    rw [hstep] at hs1
    have hs1' : s1 = actuate_send { s with last_sent_1 := t1 } 1 d a aty ar :=
      (Option.some_inj.mp hs1).symm
    have hfields : s1.usb_out_queue =
        s.usb_out_queue ++ [⟨0x00, (0b11100000 &&& (1 <<< 5)) ||| c,
          min (d * 255 / 1500) 255, min a 100⟩] ∧
        s1.last_sent_1 = t1 ∧ s1.last_sent_0 = s.last_sent_0 ∧
        s1.plugged = s.plugged := by
      rw [hs1']
      simp [actuate_send, send_command, hcmd, hplug, hroom]
    obtain ⟨hq, hl1, hl0, hpl⟩ := hfields
    refine ⟨?_, ?_, ?_, ?_⟩
    · rw [hq]
      simp
    · simp [SessionState.lastSent, hl1]
    · intro t2 d2 a2 aty2 ar2 ht2
      have h2 : t2 - s1.last_sent_1 < 1/5 := by rw [hl1]; linarith
      unfold actuate
      rw [if_neg (by simp), if_pos ⟨rfl, h2⟩]
    · intro t3 d3 a3 aty3 ar3 c3 hcmd3 ht3 hroom3
      have hg3 : ¬(t3 - s1.last_sent_1 < 1/5) := by rw [hl1]; linarith
      refine ⟨actuate_send { s1 with last_sent_1 := t3 } 1 d3 a3 aty3 ar3,
        ?_, ?_⟩
      · unfold actuate
        rw [if_neg (by simp), if_neg (fun h => hg3 h.2)]
      · simp [actuate_send, send_command, hcmd3, hpl, hplug, hroom3]

/-- Witness for C6: motor blink on puck 0 at t = 1 s from a fresh
session. -/
theorem actuate_rate_limit_witness :
    (0 : Nat) < 2 ∧
    (SessionState.mk true 0 0 []).plugged = true ∧
    (SessionState.mk true 0 0 []).usb_out_queue.length < 10 ∧
    COMMANDS "motor" "blink" = some 0x04 ∧
    (1/5 : ℚ) ≤ 1 - (SessionState.mk true 0 0 []).lastSent 0 ∧
    actuate (SessionState.mk true 0 0 []) 1 0 1000 150 "blink" "motor" =
      some (SessionState.mk true 1 0 [⟨0x00, 0x04, 170, 100⟩]) ∧
    ((SessionState.mk true 1 0 [⟨0x00, 0x04, 170, 100⟩]).usb_out_queue.length =
      (SessionState.mk true 0 0 []).usb_out_queue.length + 1 ∧
    (SessionState.mk true 1 0 [⟨0x00, 0x04, 170, 100⟩]).lastSent 0 = 1 ∧
    (∀ (t2 d2 a2 : ℚ) (aty2 ar2 : String), t2 - 1 < 1/5 →
      actuate (SessionState.mk true 1 0 [⟨0x00, 0x04, 170, 100⟩])
        t2 0 d2 a2 aty2 ar2 =
        some (SessionState.mk true 1 0 [⟨0x00, 0x04, 170, 100⟩])) ∧
    (∀ (t3 d3 a3 : ℚ) (aty3 ar3 : String) (c3 : Nat),
      COMMANDS ar3 aty3 = some c3 → 1/5 ≤ t3 - 1 →
      (SessionState.mk true 1 0
        [⟨0x00, 0x04, 170, 100⟩]).usb_out_queue.length < 10 →
      ∃ s2, actuate (SessionState.mk true 1 0 [⟨0x00, 0x04, 170, 100⟩])
          t3 0 d3 a3 aty3 ar3 = some s2 ∧
        s2.usb_out_queue.length =
          (SessionState.mk true 1 0
            [⟨0x00, 0x04, 170, 100⟩]).usb_out_queue.length + 1)) :=
  ⟨by decide, rfl, by decide, rfl, by norm_num [SessionState.lastSent],
    by norm_num [actuate, actuate_send, send_command, COMMANDS],
    actuate_rate_limit (SessionState.mk true 0 0 [])
      (SessionState.mk true 1 0 [⟨0x00, 0x04, 170, 100⟩]) 0 1 1000 150
      "blink" "motor" 0x04 (by decide) rfl (by decide) rfl
      (by norm_num [SessionState.lastSent])
      (by norm_num [actuate, actuate_send, send_command, COMMANDS])⟩

/-- C1: when the 30-byte packet's quaternion drives the `asin` argument
`2(q1*q3 - q0*q2)` outside `[-1, 1]`, `parse` raises nothing to its
caller, keeps all three stored roll/pitch/yaw values, and still updates
every other field — gyroscope, accelerometer, quaternion, load cell,
battery, the six status bits, and velocity or magnetometer according to
the new `velocity_measured` bit — from the new packet. -/
theorem parse_asin_out_of_domain (p : PuckPacket) (raw : List Nat)
    (ds : List Int) (bat stat : Nat)
    (hunpack : unpackPacket raw = some (ds, bat, stat))
    (hdom : ¬(-1 ≤ asinArg (quatOfShorts ds) ∧
      asinArg (quatOfShorts ds) ≤ 1)) :
    p.parse raw = some (p.parseFields ds bat stat) ∧
    ((p.parseFields ds bat stat).roll_pitch_yaw = p.roll_pitch_yaw ∧
    (p.parseFields ds bat stat).gyroscope =
      ⟨ds.getD 0 0, ds.getD 1 0, ds.getD 2 0⟩ ∧
    (p.parseFields ds bat stat).accelerometer =
      ⟨ds.getD 3 0, ds.getD 4 0, ds.getD 5 0⟩ ∧
    (p.parseFields ds bat stat).quaternion = quatOfShorts ds ∧
    (p.parseFields ds bat stat).load_cell = ds.getD 13 0 ∧
    (p.parseFields ds bat stat).battery = bat ∧
    (p.parseFields ds bat stat).connected = (stat &&& 0b00000001) ∧
    (p.parseFields ds bat stat).imu_ok = (stat &&& 0b00000010) >>> 1 ∧
    (p.parseFields ds bat stat).touch = (stat &&& 0b00000100) >>> 2 ∧
    (p.parseFields ds bat stat).velocity_measured =
      (stat &&& 0b00001000) >>> 3 ∧
    (p.parseFields ds bat stat).state = (stat &&& 0b01110000) >>> 4 ∧
    (p.parseFields ds bat stat).res_v5 = (stat &&& 0b10000000) >>> 7 ∧
    ((stat &&& 0b00001000) >>> 3 ≠ 0 →
      (p.parseFields ds bat stat).velocity =
        ⟨ds.getD 6 0, ds.getD 7 0, ds.getD 8 0⟩ ∧
      (p.parseFields ds bat stat).magnetometer = p.magnetometer) ∧
    ((stat &&& 0b00001000) >>> 3 = 0 →
      (p.parseFields ds bat stat).magnetometer =
        ⟨(ds.getD 6 0 : ℚ) / 100, (ds.getD 7 0 : ℚ) / 100,
          (ds.getD 8 0 : ℚ) / 100⟩ ∧
      (p.parseFields ds bat stat).velocity = p.velocity)) := by
  constructor
  · have hq' : (p.parseFields ds bat stat).quaternion = quatOfShorts ds := by
      by_cases hv : (stat &&& 0b00001000) >>> 3 = 0 <;>
        simp [PuckPacket.parseFields, PuckPacket.parse_status, hv]
    simp only [PuckPacket.parse, hunpack]
    simp [PuckPacket.getRollPitchYaw, hq', hdom]
  · by_cases hv : (stat &&& 0b00001000) >>> 3 = 0 <;>
      simp [PuckPacket.parseFields, PuckPacket.parse_status, hv]

/-- A 30-byte example packet: quaternion raw shorts (0, 10000, 0, 10000),
i.e. q = (0, 1, 0, 1), whose asin argument is 2. -/
def rawExample : List Nat :=
  List.replicate 18 0 ++ [0, 0, 16, 39, 0, 0, 16, 39] ++ List.replicate 4 0

/-- The shorts `struct.unpack` yields for `rawExample`. -/
def dsExample : List Int :=
  [0, 0, 0, 0, 0, 0, 0, 0, 0, 0, 10000, 0, 10000, 0]

/-- Witness for C1 at `rawExample`. -/
theorem parse_asin_out_of_domain_witness :
    unpackPacket rawExample = some (dsExample, 0, 0) ∧
    ¬(-1 ≤ asinArg (quatOfShorts dsExample) ∧
      asinArg (quatOfShorts dsExample) ≤ 1) ∧
    (PuckPacket.init.parse rawExample =
      some (PuckPacket.init.parseFields dsExample 0 0) ∧
    ((PuckPacket.init.parseFields dsExample 0 0).roll_pitch_yaw =
      PuckPacket.init.roll_pitch_yaw ∧
    (PuckPacket.init.parseFields dsExample 0 0).gyroscope =
      ⟨dsExample.getD 0 0, dsExample.getD 1 0, dsExample.getD 2 0⟩ ∧
    (PuckPacket.init.parseFields dsExample 0 0).accelerometer =
      ⟨dsExample.getD 3 0, dsExample.getD 4 0, dsExample.getD 5 0⟩ ∧
    (PuckPacket.init.parseFields dsExample 0 0).quaternion =
      quatOfShorts dsExample ∧
    (PuckPacket.init.parseFields dsExample 0 0).load_cell =
      dsExample.getD 13 0 ∧
    (PuckPacket.init.parseFields dsExample 0 0).battery = 0 ∧
    (PuckPacket.init.parseFields dsExample 0 0).connected =
      (0 &&& 0b00000001) ∧
    (PuckPacket.init.parseFields dsExample 0 0).imu_ok =
      (0 &&& 0b00000010) >>> 1 ∧
    (PuckPacket.init.parseFields dsExample 0 0).touch =
      (0 &&& 0b00000100) >>> 2 ∧
    (PuckPacket.init.parseFields dsExample 0 0).velocity_measured =
      (0 &&& 0b00001000) >>> 3 ∧
    (PuckPacket.init.parseFields dsExample 0 0).state =
      (0 &&& 0b01110000) >>> 4 ∧
    (PuckPacket.init.parseFields dsExample 0 0).res_v5 =
      (0 &&& 0b10000000) >>> 7 ∧
    ((0 &&& 0b00001000) >>> 3 ≠ 0 →
      (PuckPacket.init.parseFields dsExample 0 0).velocity =
        ⟨dsExample.getD 6 0, dsExample.getD 7 0, dsExample.getD 8 0⟩ ∧
      (PuckPacket.init.parseFields dsExample 0 0).magnetometer =
        PuckPacket.init.magnetometer) ∧
    ((0 &&& 0b00001000) >>> 3 = 0 →
      (PuckPacket.init.parseFields dsExample 0 0).magnetometer =
        ⟨(dsExample.getD 6 0 : ℚ) / 100, (dsExample.getD 7 0 : ℚ) / 100,
          (dsExample.getD 8 0 : ℚ) / 100⟩ ∧
      (PuckPacket.init.parseFields dsExample 0 0).velocity =
        PuckPacket.init.velocity))) :=
  ⟨by decide, by norm_num [asinArg, quatOfShorts, dsExample],
    parse_asin_out_of_domain PuckPacket.init rawExample dsExample 0 0
      (by decide) (by norm_num [asinArg, quatOfShorts, dsExample])⟩

end FitMi
